import Mathlib

/-!
Verification development for the webhook ingestion pipeline
(`services/webhook-service` and `services/git-integration`).

The Python sources are shallowly embedded as executable Lean definitions:

* JSON values become the inductive `Json`; Python dicts become association
  lists `List (String × Json)`.
* Library primitives that are external to the repository (HMAC-SHA256,
  JWT decoding, `json.loads`) are passed in as an `Oracles` record; the
  repository code around them is translated statement by statement.
* Side effects that matter to the claims (Kafka publishes, broker calls,
  log warnings) are returned explicitly as traces.
* `datetime.utcnow()` and `uuid.uuid4()` are passed in as the parameters
  `now` and `gen_uuid`.
-/

namespace CodeReview

/-- JSON values, as produced by `json.loads`.  Numbers are modelled as `Int`
(no claim involves fractional numbers). -/
inductive Json where
  | null
  | bool (b : Bool)
  | num (n : Int)
  | str (s : String)
  | arr (elems : List Json)
  | obj (fields : List (String × Json))

/-- `fields.get(k)` on a parsed-JSON dict (keys are unique after `json.loads`). -/
def lookupField (fields : List (String × Json)) (k : String) : Option Json :=
  List.lookup k fields

/-- Python truthiness of a string: only the empty string is falsy. -/
def pyFalsy (s : String) : Bool :=
  s.data.isEmpty

/-- Python `str.startswith`, character based (Python strings are sequences of
code points, so the embedding works on `String.data`). -/
def charsPre : List Char → List Char → Bool
  | [], _ => true
  | _ :: _, [] => false
  | p :: ps, c :: cs => p == c && charsPre ps cs

/-- Python `s.startswith(p)`. -/
def pyStartsWith (s p : String) : Bool :=
  charsPre p.data s.data

/-- Python `s[n:]` for a nonnegative `n`. -/
def pyDropChars (s : String) (n : Nat) : String :=
  String.mk (List.drop n s.data)

/-- `hmac.compare_digest` on ASCII strings: a comparison that scans the whole
common length with no early exit; the result is `true` iff the strings are
equal. -/
def ctEq : List Char → List Char → Bool
  | [], [] => true
  | [], _ :: _ => false
  | _ :: _, [] => false
  | a :: as, b :: bs => ctEq as bs && a == b

/-- Number of character comparisons `ctEq` performs: it depends only on the
lengths of the two inputs, never on their contents. -/
def ctSteps : List Char → List Char → Nat
  | [], [] => 0
  | [], _ :: _ => 0
  | _ :: _, [] => 0
  | _ :: as, _ :: bs => ctSteps as bs + 1

/-- `hmac.compare_digest(a, b)` (constant-time string comparison). -/
def compare_digest (a b : String) : Bool :=
  ctEq a.data b.data

/-- Comparison-step count of `compare_digest`. -/
def compare_digest_steps (a b : String) : Nat :=
  ctSteps a.data b.data

/-! ### `src/models/app.py` -/

/-- `AppPermission` enum. -/
inductive AppPermission where
  | read_repository | write_repository
  | read_pull_request | write_pull_request
  | read_issue | write_issue
  | read_comment | write_comment
  | receive_webhook

/-- `AppScope` model. -/
structure AppScopeL where
  owner : Option String
  repositories : Option (List String)

/-- `App` model. -/
structure AppL where
  id : String
  name : String
  description : Option String
  owner : String
  permissions : List AppPermission
  scopes : List AppScopeL
  webhook_secret : String
  api_key : String
  active : Bool

/-! ### `src/models/webhook.py` -/

/-- `GitPlatform` enum. -/
inductive GitPlatform where
  | github | gitlab | azure_devops | bitbucket

/-- `WebhookEventType` enum. -/
inductive WebhookEventType where
  | pull_request_opened | pull_request_closed | pull_request_reopened
  | pull_request_edited | pull_request_assigned | pull_request_unassigned
  | pull_request_review_requested | pull_request_review_request_removed
  | pull_request_labeled | pull_request_unlabeled | pull_request_synchronized
  | pull_request_review_submitted | pull_request_review_edited
  | pull_request_review_dismissed
  | pull_request_review_comment_created | pull_request_review_comment_edited
  | pull_request_review_comment_deleted
  | issue_opened | issue_closed | issue_reopened | issue_edited
  | issue_assigned | issue_unassigned | issue_labeled | issue_unlabeled
  | issue_comment_created | issue_comment_edited | issue_comment_deleted
  | push
  | repository_created | repository_deleted | repository_archived
  | repository_unarchived | repository_edited | repository_renamed
  | repository_transferred | repository_publicized | repository_privatized
  | ping | other
deriving DecidableEq

/-- The `.value` string of each `WebhookEventType` member. -/
def eventTypeValue : WebhookEventType → String
  | .pull_request_opened => "pull_request.opened"
  | .pull_request_closed => "pull_request.closed"
  | .pull_request_reopened => "pull_request.reopened"
  | .pull_request_edited => "pull_request.edited"
  | .pull_request_assigned => "pull_request.assigned"
  | .pull_request_unassigned => "pull_request.unassigned"
  | .pull_request_review_requested => "pull_request.review_requested"
  | .pull_request_review_request_removed => "pull_request.review_request_removed"
  | .pull_request_labeled => "pull_request.labeled"
  | .pull_request_unlabeled => "pull_request.unlabeled"
  | .pull_request_synchronized => "pull_request.synchronized"
  | .pull_request_review_submitted => "pull_request_review.submitted"
  | .pull_request_review_edited => "pull_request_review.edited"
  | .pull_request_review_dismissed => "pull_request_review.dismissed"
  | .pull_request_review_comment_created => "pull_request_review_comment.created"
  | .pull_request_review_comment_edited => "pull_request_review_comment.edited"
  | .pull_request_review_comment_deleted => "pull_request_review_comment.deleted"
  | .issue_opened => "issue.opened"
  | .issue_closed => "issue.closed"
  | .issue_reopened => "issue.reopened"
  | .issue_edited => "issue.edited"
  | .issue_assigned => "issue.assigned"
  | .issue_unassigned => "issue.unassigned"
  | .issue_labeled => "issue.labeled"
  | .issue_unlabeled => "issue.unlabeled"
  | .issue_comment_created => "issue_comment.created"
  | .issue_comment_edited => "issue_comment.edited"
  | .issue_comment_deleted => "issue_comment.deleted"
  | .push => "push"
  | .repository_created => "repository.created"
  | .repository_deleted => "repository.deleted"
  | .repository_archived => "repository.archived"
  | .repository_unarchived => "repository.unarchived"
  | .repository_edited => "repository.edited"
  | .repository_renamed => "repository.renamed"
  | .repository_transferred => "repository.transferred"
  | .repository_publicized => "repository.publicized"
  | .repository_privatized => "repository.privatized"
  | .ping => "ping"
  | .other => "other"

/-! ### Requests and external primitives -/

/-- An inbound HTTP request: its headers and its exact raw body bytes. -/
structure RequestL where
  headers : List (String × String)
  body : List Nat

/-- `request.headers.get(name)`. -/
def headerGet (hs : List (String × String)) (k : String) : Option String :=
  List.lookup k hs

/-- Claims of a successfully decoded, unexpired JWT (`payload.get("sub")`). -/
structure JwtClaims where
  sub : Option String

/-- Library primitives external to the repository, passed in as oracles:
HMAC-SHA256 hex digest keyed by the webhook secret over the raw body bytes,
`jose.jwt.decode` (returning `none` on `JWTError`, which includes expiry),
and `json.loads` (returning `none` on `JSONDecodeError`). -/
structure Oracles where
  hmacSha256Hex : String → List Nat → String
  jwtDecode : String → Option JwtClaims
  jsonLoads : List Nat → Option Json

/-! ### `src/auth/app_auth.py` -/

/-- `AppAuthManager.register_app`: the result is the raised error (if any)
paired with the post-state of the `_apps` store. -/
def register_app (store : List (String × AppL)) (a : AppL) :
    Option (Nat × String) × List (String × AppL) :=
  if (List.lookup a.id store).isSome then
    (some (400, "App ID " ++ a.id ++ " already registered"), store)
  else
    (none, store ++ [(a.id, a)])

/-- `AppAuthManager.get_app`. -/
def get_app (store : List (String × AppL)) (app_id : String) : Option AppL :=
  List.lookup app_id store

/-- `AppAuthManager._authenticate_webhook_signature`: the result is the
returned `Optional[App]` paired with the `logger.warning` messages emitted. -/
def _authenticate_webhook_signature (o : Oracles) (app : AppL) (req : RequestL) :
    Option AppL × List String :=
  match headerGet req.headers "X-Hub-Signature-256" with
  | none => (none, ["No signature header in request"])
  | some sh =>
    if pyFalsy sh then (none, ["No signature header in request"])
    else if pyStartsWith sh "sha256=" = false then (none, ["Invalid signature format"])
    else
      let signature := pyDropChars sh 7
      let expected := o.hmacSha256Hex app.webhook_secret req.body
      if compare_digest signature expected then (some app, [])
      else (none, ["Invalid signature"])

/-- `AppAuthManager._authenticate_api_key`. -/
def _authenticate_api_key (app : AppL) (req : RequestL) :
    Option AppL × List String :=
  match headerGet req.headers "X-App-Key" with
  | none => (none, ["No API key in request"])
  | some k =>
    if pyFalsy k then (none, ["No API key in request"])
    else if k = app.api_key then (some app, [])
    else (none, ["Invalid API key"])

/-- `AppAuthManager._authenticate_jwt`. -/
def _authenticate_jwt (o : Oracles) (app : AppL) (req : RequestL) :
    Option AppL × List String :=
  match headerGet req.headers "Authorization" with
  | none => (none, ["No Authorization header in request"])
  | some ah =>
    if pyFalsy ah then (none, ["No Authorization header in request"])
    else if pyStartsWith ah "Bearer " = false then
      (none, ["Invalid Authorization header format"])
    else
      match o.jwtDecode (pyDropChars ah 7) with
      | none => (none, ["Invalid JWT token"])
      | some claims =>
        if claims.sub = some app.id then (some app, [])
        else (none, ["Token subject does not match app ID"])

/-- `AppAuthManager.authenticate_app`. -/
def authenticate_app (o : Oracles) (store : List (String × AppL))
    (app_id : String) (req : RequestL) : Option AppL × List String :=
  match get_app store app_id with
  | none => (none, ["App not found: " ++ app_id])
  | some app =>
    if (headerGet req.headers "X-Hub-Signature-256").isSome then
      _authenticate_webhook_signature o app req
    else if (headerGet req.headers "X-App-Key").isSome then
      _authenticate_api_key app req
    else if (headerGet req.headers "Authorization").isSome then
      _authenticate_jwt o app req
    else
      (none, ["No authentication method found for app: " ++ app_id])

/-! ### `src/config.py` -/

/-- The Kafka settings the pipeline reads (`KafkaSettings`). -/
structure SettingsL where
  github_raw_topic : String
  github_validated_topic : String

/-- Default topic names from `config.py`. -/
def defaultSettings : SettingsL :=
  { github_raw_topic := "webhook.github.raw"
    github_validated_topic := "webhook.github.validated" }

/-! ### Webhook payload models (`src/models/webhook.py`), as published -/

/-- `WebhookPayload` (the base pydantic model), after validation.
`repository` and `sender` are `Optional[Dict[str, Any]]`. -/
structure WebhookPayloadL where
  platform : GitPlatform
  event_type : WebhookEventType
  delivery_id : String
  timestamp : Nat
  app_id : String
  raw_payload : List (String × Json)
  repository : Option (List (String × Json))
  sender : Option (List (String × Json))

/-- `PullRequestWebhookPayload`. -/
structure PullRequestWebhookPayloadL extends WebhookPayloadL where
  pull_request : List (String × Json)
  action : String

/-- A validated envelope as published to the validated topic
(`webhook_payload.dict()`). -/
inductive ValidatedEnvelope where
  | ping (p : WebhookPayloadL)
  | pullRequest (p : PullRequestWebhookPayloadL)

/-- The raw-event dict published to the raw topic by `handle_webhook`. -/
structure RawEventMessage where
  platform : String
  event_type : String
  delivery_id : String
  timestamp : Nat
  app_id : String
  payload : Json
  headers : List (String × String)

/-- A message value handed to `KafkaProducer.send_message`. -/
inductive MessageL where
  | raw (m : RawEventMessage)
  | validated (e : ValidatedEnvelope)

/-! ### `src/messaging/kafka_producer.py` -/

/-- One attempted broker publish: topic, ordering key, message, and whether
the broker acknowledged it (`send_and_wait` returned rather than raising). -/
structure PublishRecord where
  topic : String
  key : Option String
  message : MessageL
  acked : Bool

/-- The broker's behaviour: whether a publish to a given topic is
acknowledged (`true`) or fails with an exception (`false`). -/
def Broker : Type := String → Bool

/-- The value `KafkaProducer.send_message` produces: either the
`RuntimeError` raised when the producer was never started, or the returned
boolean. -/
inductive SendResult where
  | runtimeError (msg : String)
  | sent (ok : Bool)
deriving DecidableEq

/-- `KafkaProducer.send_message`: `started` is whether `self.producer` is not
`None`; `ack` is whether `send_and_wait` succeeds.  Returns the result and the
publish attempts made (exactly one when started, none otherwise). -/
def send_message (started : Bool) (ack : Bool) (topic : String)
    (message : MessageL) (key : Option String) :
    SendResult × List PublishRecord :=
  if started = false then
    (.runtimeError "Kafka producer not started", [])
  else
    (.sent ack, [{ topic := topic, key := key, message := message, acked := ack }])

/-- `KafkaProducer.send_github_raw_event` (producer already started by the
service startup hook). -/
def send_github_raw_event (st : SettingsL) (broker : Broker)
    (message : MessageL) (key : Option String) : SendResult × List PublishRecord :=
  send_message true (broker st.github_raw_topic) st.github_raw_topic message key

/-- `KafkaProducer.send_github_validated_event`. -/
def send_github_validated_event (st : SettingsL) (broker : Broker)
    (message : MessageL) (key : Option String) : SendResult × List PublishRecord :=
  send_message true (broker st.github_validated_topic) st.github_validated_topic message key

/-! ### `src/handlers/github_handler.py` -/

/-- The response of the webhook endpoint: a 200 JSON body, or a raised
`HTTPException` with its status code and detail. -/
inductive HandlerResponse where
  | ok (body : List (String × Json))
  | httpException (status : Nat) (detail : String)

/-- pydantic validation of an `Optional[Dict[str, Any]]` field fed from
`payload.get(...)`: absent or JSON `null` become `None`, a dict is accepted,
anything else is a `ValidationError`. -/
def validateOptObj : Option Json → Except String (Option (List (String × Json)))
  | none => .ok none
  | some .null => .ok none
  | some (.obj fs) => .ok (some fs)
  | some _ => .error "value is not a valid dict"

/-- pydantic v1 lenient validation of a `str` field: strings pass through,
numbers and booleans are coerced via `str()`, everything else is a
`ValidationError`. -/
def coerceStr : Json → Except String String
  | .str s => .ok s
  | .num n => .ok (toString n)
  | .bool b => .ok (if b then "True" else "False")
  | _ => .error "str type expected"

/-- Python `str(value)` as used in the response f-string (claims only
exercise string-valued actions). -/
def pyStrOfJson : Json → String
  | .str s => s
  | .num n => toString n
  | .bool b => if b then "True" else "False"
  | .null => "None"
  | .arr _ => "<list>"
  | .obj _ => "<dict>"

/-- The `event_type_map` literal in `_handle_pull_request_event`. -/
def event_type_map : List (String × WebhookEventType) :=
  [("opened", .pull_request_opened),
   ("closed", .pull_request_closed),
   ("reopened", .pull_request_reopened),
   ("edited", .pull_request_edited),
   ("assigned", .pull_request_assigned),
   ("unassigned", .pull_request_unassigned),
   ("review_requested", .pull_request_review_requested),
   ("review_request_removed", .pull_request_review_request_removed),
   ("labeled", .pull_request_labeled),
   ("unlabeled", .pull_request_unlabeled),
   ("synchronize", .pull_request_synchronized)]

/-- `event_type_map.get(action, WebhookEventType.OTHER)`: the raw `action`
value is used as the dict key, so only a string can match. -/
def prEventTypeOfAction : Json → WebhookEventType
  | .str s => (List.lookup s event_type_map).getD .other
  | _ => .other

/-- Construction of `PullRequestWebhookPayload(...)` in
`_handle_pull_request_event`, including the pydantic field validation.
`pull_request` is fed `payload.get("pull_request", {})`. -/
def mkPullRequestPayload (app : AppL) (now : Nat) (fields : List (String × Json))
    (actionJson : Json) (event_type : WebhookEventType) (delivery_id : String) :
    Except String PullRequestWebhookPayloadL :=
  match validateOptObj (lookupField fields "repository") with
  | .error e => .error e
  | .ok repo =>
  match validateOptObj (lookupField fields "sender") with
  | .error e => .error e
  | .ok send =>
  match (lookupField fields "pull_request").getD (Json.obj []) with
  | .obj prf =>
    (match coerceStr actionJson with
     | .error e => .error e
     | .ok act =>
       .ok { platform := .github, event_type := event_type,
             delivery_id := delivery_id, timestamp := now, app_id := app.id,
             raw_payload := fields, repository := repo, sender := send,
             pull_request := prf, action := act })
  | _ => .error "value is not a valid dict"

/-- `GitHubWebhookHandler._handle_pull_request_event`.  The first component
is the returned response dict, or the exception message that the caller turns
into a 500; the second is the publish attempts made. -/
def handle_pull_request_event (st : SettingsL) (broker : Broker) (app : AppL)
    (now : Nat) (payload : Json) (delivery_id : String) :
    Except String (List (String × Json)) × List PublishRecord :=
  match payload with
  | .obj fields =>
    let actionJson := (lookupField fields "action").getD (Json.str "")
    let event_type := prEventTypeOfAction actionJson
    match mkPullRequestPayload app now fields actionJson event_type delivery_id with
    | .error e => (.error e, [])
    | .ok wp =>
      let s := send_github_validated_event st broker
        (.validated (.pullRequest wp)) (some delivery_id)
      (.ok [("message", Json.str ("Pull request event processed: " ++ pyStrOfJson actionJson)),
            ("event_type", Json.str (eventTypeValue event_type)),
            ("delivery_id", Json.str delivery_id)], s.2)
  | _ => (.error "AttributeError", [])

/-- `GitHubWebhookHandler._handle_ping_event`. -/
def handle_ping_event (st : SettingsL) (broker : Broker) (app : AppL)
    (now : Nat) (payload : Json) (delivery_id : String) :
    Except String (List (String × Json)) × List PublishRecord :=
  match payload with
  | .obj fields =>
    match validateOptObj (lookupField fields "repository") with
    | .error e => (.error e, [])
    | .ok repo =>
    match validateOptObj (lookupField fields "sender") with
    | .error e => (.error e, [])
    | .ok send =>
      let wp : WebhookPayloadL :=
        { platform := .github, event_type := .ping, delivery_id := delivery_id,
          timestamp := now, app_id := app.id, raw_payload := fields,
          repository := repo, sender := send }
      let s := send_github_validated_event st broker
        (.validated (.ping wp)) (some delivery_id)
      (.ok [("message", Json.str "Pong!")], s.2)
  | _ => (.error "AttributeError", [])

/-- The event-type dispatch inside the `try` block of `handle_webhook`
(the unimplemented event families return their stub responses). -/
def processEvent (st : SettingsL) (broker : Broker) (app : AppL) (now : Nat)
    (event_type : String) (payload : Json) (delivery_id : String) :
    Except String (List (String × Json)) × List PublishRecord :=
  if event_type = "ping" then
    handle_ping_event st broker app now payload delivery_id
  else if event_type = "pull_request" then
    handle_pull_request_event st broker app now payload delivery_id
  else if event_type = "issues" then
    (.ok [("message", Json.str "Issue event processed")], [])
  else if event_type = "issue_comment" then
    (.ok [("message", Json.str "Issue comment event processed")], [])
  else if event_type = "pull_request_review" then
    (.ok [("message", Json.str "Pull request review event processed")], [])
  else if event_type = "pull_request_review_comment" then
    (.ok [("message", Json.str "Pull request review comment event processed")], [])
  else if event_type = "push" then
    (.ok [("message", Json.str "Push event processed")], [])
  else
    (.ok [("message", Json.str ("Event type " ++ event_type ++ " not supported"))], [])

/-- `GitHubWebhookHandler.handle_webhook`: header checks, JSON parse, raw
publish (its boolean result is not inspected), then the event dispatch whose
exceptions become a 500. -/
def handle_webhook (o : Oracles) (st : SettingsL) (broker : Broker) (app : AppL)
    (now : Nat) (gen_uuid : String) (req : RequestL) :
    HandlerResponse × List PublishRecord :=
  let etOpt := headerGet req.headers "X-GitHub-Event"
  match etOpt with
  | none => (.httpException 400 "Missing event type", [])
  | some event_type =>
    if pyFalsy event_type then (.httpException 400 "Missing event type", [])
    else
      let didOpt := headerGet req.headers "X-GitHub-Delivery"
      let delivery_id :=
        match didOpt with
        | none => gen_uuid
        | some d => if pyFalsy d then gen_uuid else d
      match o.jsonLoads req.body with
      | none => (.httpException 400 "Invalid JSON payload", [])
      | some payload =>
        let raw := send_github_raw_event st broker
          (.raw { platform := "github", event_type := event_type,
                  delivery_id := delivery_id, timestamp := now,
                  app_id := app.id, payload := payload,
                  headers := req.headers })
          (some delivery_id)
        match processEvent st broker app now event_type payload delivery_id with
        | (.ok body, recs) => (.ok body, raw.2 ++ recs)
        | (.error e, recs) =>
          (.httpException 500 ("Error processing webhook: " ++ e), raw.2 ++ recs)

/-- The `POST /webhooks/github/{app_id}` route in `src/main.py`:
authenticate, then hand off to `handle_webhook`. -/
def github_webhook (o : Oracles) (st : SettingsL) (store : List (String × AppL))
    (broker : Broker) (now : Nat) (gen_uuid : String) (app_id : String)
    (req : RequestL) : HandlerResponse × List PublishRecord :=
  match (authenticate_app o store app_id req).1 with
  | none => (.httpException 401 "Invalid app credentials", [])
  | some app => handle_webhook o st broker app now gen_uuid req

/-! ### `services/git-integration/src/common/kafka_consumer.py` -/

/-- The mutable state of a `KafkaConsumer` instance: whether `self.consumer`
is not `None`, `self.running`, and `self.handlers` (topic → handler list,
dict insertion order preserved).  Handlers are identified by `Nat` ids whose
behaviour is supplied separately. -/
structure ConsumerState where
  consumer : Bool
  running : Bool
  handlers : List (String × List Nat)

/-- The state built by `KafkaConsumer.__init__`. -/
def initConsumerState : ConsumerState :=
  { consumer := false, running := false, handlers := [] }

/-- Broker-side effects the subscriber can perform. -/
inductive BrokerOp where
  | consumerStop
  | subscribe (topics : List String)

/-- `KafkaConsumer.stop`: early return when `self.consumer is None`,
otherwise clear `running`, stop and drop the broker consumer. -/
def stop (s : ConsumerState) : ConsumerState × List BrokerOp :=
  if s.consumer = false then (s, [])
  else ({ s with running := false, consumer := false }, [.consumerStop])

/-- The dict update performed by `register_handler`:
`handlers.setdefault(topic, []).append(handler)` in effect. -/
def addHandler : List (String × List Nat) → String → Nat → List (String × List Nat)
  | [], t, h => [(t, [h])]
  | (t0, hs0) :: rest, t, h =>
    if t0 = t then (t0, hs0 ++ [h]) :: rest
    else (t0, hs0) :: addHandler rest t h

/-- `KafkaConsumer.register_handler`: update the registry, and re-subscribe
with the updated topic set when the consumer is already running. -/
def register_handler (s : ConsumerState) (topic : String) (h : Nat) :
    ConsumerState × List BrokerOp :=
  let handlers := addHandler s.handlers topic h
  if s.consumer && s.running then
    ({ s with handlers := handlers }, [.subscribe (handlers.map Prod.fst)])
  else
    ({ s with handlers := handlers }, [])

/-- Whether an `Except` computation succeeded. -/
def exOk {ε α : Type} : Except ε α → Bool
  | .ok _ => true
  | .error _ => false

/-- One message pulled from the broker: its topic, its JSON-decoded value
(`none` models a `JSONDecodeError`), and its key. -/
structure KMessage where
  topic : String
  value : Option Json
  key : Option String

/-- The per-message body of `KafkaConsumer._consume_loop`: decode, look up
the topic's handlers, and invoke each in order, catching handler errors.
`behave h v k` is what handler `h` does on value `v` and key `k`.  The result
is the invocation trace: each invoked handler id with whether it succeeded. -/
def handleMessage (handlers : List (String × List Nat))
    (behave : Nat → Json → Option String → Except String Unit)
    (m : KMessage) : List (Nat × Bool) :=
  match m.value with
  | none => []
  | some v =>
    let hs := (List.lookup m.topic handlers).getD []
    hs.map (fun h => (h, exOk (behave h v m.key)))

/-- The message loop of `_consume_loop` over a finite stream of messages:
every message is processed, whatever happened on the previous ones. -/
def consume_loop (handlers : List (String × List Nat))
    (behave : Nat → Json → Option String → Except String Unit)
    (msgs : List KMessage) : List (List (Nat × Bool)) :=
  msgs.map (handleMessage handlers behave)

/-! ### Concrete fixtures used by the witnesses and counterexamples -/

/-- A registered application. -/
def appW : AppL :=
  { id := "a1", name := "App One", description := none, owner := "owner@example.com",
    permissions := [.receive_webhook], scopes := [],
    webhook_secret := "sec", api_key := "k1", active := true }

/-- A one-application credential store. -/
def storeW : List (String × AppL) := [("a1", appW)]

/-- A pull-request payload that lacks the `pull_request` object. -/
def payloadNoPR : List (String × Json) := [("action", Json.str "opened")]

/-- The same payload with the `pull_request` object present. -/
def payloadWithPR : List (String × Json) :=
  [("action", Json.str "opened"), ("pull_request", Json.obj [("id", Json.num 1)])]

/-- Oracles for the concrete runs: a toy (injective-on-the-inputs-used)
stand-in for the HMAC hex digest, no JWT decoding, and a `json.loads` that
parses body `[0]` to `payloadNoPR` and anything else to `payloadWithPR`. -/
def oraclesW : Oracles :=
  { hmacSha256Hex := fun s b => s ++ String.intercalate "," (b.map toString)
    jwtDecode := fun _ => none
    jsonLoads := fun b => if b = [0] then some (Json.obj payloadNoPR) else some (Json.obj payloadWithPR) }

/-- A broker that acknowledges every publish. -/
def brokerOk : Broker := fun _ => true

/-- A broker that fails every publish (unreachable / write timeout). -/
def brokerFail : Broker := fun _ => false

/-- Request carrying a `pull_request` event whose body parses to
`payloadNoPR`. -/
def reqNoPR : RequestL :=
  { headers := [("X-GitHub-Event", "pull_request"), ("X-GitHub-Delivery", "d1")]
    body := [0] }

/-- Request carrying a `pull_request` event whose body parses to
`payloadWithPR`. -/
def reqWithPR : RequestL :=
  { headers := [("X-GitHub-Event", "pull_request"), ("X-GitHub-Delivery", "d1")]
    body := [1] }

/-- An authenticated (API-key) `pull_request` request whose body parses to
`payloadWithPR`. -/
def reqApiKey : RequestL :=
  { headers := [("X-GitHub-Event", "pull_request"), ("X-GitHub-Delivery", "d1"),
                ("X-App-Key", "k1")]
    body := [1] }

/-- The validated envelope the handler builds from `payloadNoPR`: its
`pull_request` data is the empty dict. -/
def prEnvelopeNoPR : PullRequestWebhookPayloadL :=
  { platform := .github, event_type := .pull_request_opened, delivery_id := "d1",
    timestamp := 0, app_id := "a1", raw_payload := payloadNoPR,
    repository := none, sender := none, pull_request := [], action := "opened" }

/-- The validated envelope the handler builds from `payloadWithPR`. -/
def prEnvelopeWithPR : PullRequestWebhookPayloadL :=
  { platform := .github, event_type := .pull_request_opened, delivery_id := "d1",
    timestamp := 0, app_id := "a1", raw_payload := payloadWithPR,
    repository := none, sender := none, pull_request := [("id", Json.num 1)],
    action := "opened" }

/-- The 200 body returned for an `opened` pull-request event. -/
def prOkBody : List (String × Json) :=
  [("message", Json.str "Pull request event processed: opened"),
   ("event_type", Json.str "pull_request.opened"),
   ("delivery_id", Json.str "d1")]

/-- Handler behaviour for the consumer witness: handler 0 raises, handler 1
succeeds. -/
def behaveW : Nat → Json → Option String → Except String Unit :=
  fun h _ _ => if h = 0 then .error "boom" else .ok ()

/-- A request with a correct signature header over its body `[0]`. -/
def reqSigW : RequestL :=
  { headers := [("X-Hub-Signature-256", "sha256=" ++ oraclesW.hmacSha256Hex "sec" [0])]
    body := [0] }

/-- The same signature header, but the body mutated in a single byte. -/
def reqSigMutW : RequestL :=
  { headers := [("X-Hub-Signature-256", "sha256=" ++ oraclesW.hmacSha256Hex "sec" [0])]
    body := [1] }

/-- A request presenting none of the three authentication headers. -/
def reqNoAuth : RequestL :=
  { headers := [("X-GitHub-Event", "ping")], body := [] }

/-- A structurally valid pull-request payload with an unrecognized action. -/
def fieldsC6 : List (String × Json) :=
  [("action", Json.str "bogus"), ("pull_request", Json.obj [])]

/-! ## Helper lemmas -/

/-- `ctEq` is reflexive. -/
theorem ctEq_self : ∀ l : List Char, ctEq l l = true
  | [] => rfl
  | c :: cs => by simp [ctEq, ctEq_self cs]

/-- `ctEq` decides list equality. -/
theorem ctEq_iff : ∀ a b : List Char, ctEq a b = true ↔ a = b
  | [], [] => by simp [ctEq]
  | [], _ :: _ => by simp [ctEq]
  | _ :: _, [] => by simp [ctEq]
  | a :: as, b :: bs => by
    simp [ctEq, ctEq_iff as bs, and_comm]

/-- `compare_digest` decides string equality. -/
theorem compare_digest_iff (a b : String) : compare_digest a b = true ↔ a = b := by
  cases a
  cases b
  simp only [compare_digest, ctEq_iff]
  exact ⟨congrArg String.mk, fun h => by injection h⟩

/-- `compare_digest` is reflexive. -/
theorem compare_digest_self (a : String) : compare_digest a a = true :=
  (compare_digest_iff a a).mpr rfl

/-- The comparison-step count of the constant-time scan is exactly the
common length of the two inputs. -/
theorem ctSteps_len : ∀ a b : List Char, ctSteps a b = min a.length b.length
  | [], [] => rfl
  | [], _ :: _ => by simp [ctSteps]
  | _ :: _, [] => by simp [ctSteps]
  | _ :: as, _ :: bs => by
    simp [ctSteps, ctSteps_len as bs, Nat.succ_min_succ]

/-- A `"sha256="`-headed string is never falsy. -/
theorem sha_nonempty (d : String) : pyFalsy ("sha256=" ++ d) = false := by
  cases d
  rfl

/-- A `"sha256="`-headed string starts with `"sha256="`. -/
theorem sha_pre (d : String) : pyStartsWith ("sha256=" ++ d) "sha256=" = true := by
  cases d with
  | mk l => simp [pyStartsWith, charsPre]

/-- Dropping the 7-character `"sha256="` marker recovers the suffix. -/
theorem sha_drop (d : String) : pyDropChars ("sha256=" ++ d) 7 = d := by
  cases d
  rfl

/-- Appending a fresh key to an association list makes it found. -/
theorem lookup_append_fresh {β : Type} (l : List (String × β)) (k : String) (b : β)
    (h : List.lookup k l = none) : List.lookup k (l ++ [(k, b)]) = some b := by
  induction l with
  | nil => simp [List.lookup]
  | cons hd tl ih =>
    obtain ⟨k0, b0⟩ := hd
    by_cases hk : k = k0
    · simp [List.lookup, hk] at h
    · simp only [List.cons_append, List.lookup] at h ⊢
      rw [beq_false_of_ne hk] at h ⊢
      exact ih h

/-- Appending an entry for a different key leaves a lookup unchanged. -/
theorem lookup_append_ne {β : Type} (l : List (String × β)) (k x : String) (b : β)
    (hx : x ≠ k) : List.lookup x (l ++ [(k, b)]) = List.lookup x l := by
  induction l with
  | nil => simp [List.lookup, beq_false_of_ne hx]
  | cons hd tl ih =>
    obtain ⟨k0, b0⟩ := hd
    by_cases hk : x = k0
    · simp [List.lookup, hk]
    · simp only [List.cons_append, List.lookup]
      rw [beq_false_of_ne hk]
      exact ih

/-- `addHandler` appends the handler to the topic's list (creating it). -/
theorem addHandler_lookup_self (l : List (String × List Nat)) (t : String) (h : Nat) :
    List.lookup t (addHandler l t h) = some (((List.lookup t l).getD []) ++ [h]) := by
  induction l with
  | nil => simp [addHandler, List.lookup]
  | cons hd tl ih =>
    obtain ⟨t0, hs0⟩ := hd
    by_cases ht : t0 = t
    · simp [addHandler, ht, List.lookup]
    · have hne : t ≠ t0 := fun hv => ht hv.symm
      simp only [addHandler, ht, if_false, List.lookup]
      rw [beq_false_of_ne hne]
      exact ih

/-- `register_handler` updates the registry with `addHandler` whether or not
the consumer is running. -/
theorem register_handler_handlers (s : ConsumerState) (t : String) (h : Nat) :
    ((register_handler s t h).1).handlers = addHandler s.handlers t h := by
  simp only [register_handler]
  split <;> rfl

/-! ## Claims -/

/-- Claim C1: the spec says a `pull_request` event whose parsed JSON body
lacks the `pull_request` object must fail with a 400 `PayloadError`.  The
code instead silently coerces the missing object to the empty dict via the
`payload.get` fallback and answers 200: both
the payload without the object and the payload with it produce the same
success response.  This theorem evaluates `handle_webhook` at the failing
input (and at the with-object input, which indeed succeeds). -/
theorem claim_C1_missing_object_not_rejected :
    (handle_webhook oraclesW defaultSettings brokerOk appW 0 "gen" reqNoPR).1
      = .ok prOkBody ∧
    (handle_webhook oraclesW defaultSettings brokerOk appW 0 "gen" reqWithPR).1
      = .ok prOkBody :=
  ⟨rfl, rfl⟩

/-- Claim C2: the spec says a broker publish failure must surface as a 500.
The code ignores the `False` that `send_message` returns on failure: with a
broker that fails every publish, the authenticated endpoint still answers
200 with the normal success body.  Both publishes are attempted exactly once
(no internal retry) and both go unacknowledged. -/
theorem claim_C2_publish_failure_returns_success :
    github_webhook oraclesW defaultSettings storeW brokerFail 0 "gen" "a1" reqApiKey
      = (.ok prOkBody,
         [{ topic := "webhook.github.raw", key := some "d1",
            message := .raw { platform := "github", event_type := "pull_request",
                              delivery_id := "d1", timestamp := 0, app_id := "a1",
                              payload := Json.obj payloadWithPR,
                              headers := reqApiKey.headers },
            acked := false },
          { topic := "webhook.github.validated", key := some "d1",
            message := .validated (.pullRequest prEnvelopeWithPR),
            acked := false }]) :=
  rfl

/-- Claim C3: the spec's invariant says a published pull-request variant
envelope never carries null/empty pull-request data.  Evaluating the code on
an inbound `pull_request` webhook without a `pull_request` object shows the
handler publishing a validated pull-request envelope whose `pull_request`
field is the empty dict, violating the invariant. -/
theorem claim_C3_validated_envelope_with_empty_pull_request :
    (handle_webhook oraclesW defaultSettings brokerOk appW 0 "gen" reqNoPR).2
      = [{ topic := "webhook.github.raw", key := some "d1",
           message := .raw { platform := "github", event_type := "pull_request",
                             delivery_id := "d1", timestamp := 0, app_id := "a1",
                             payload := Json.obj payloadNoPR,
                             headers := reqNoPR.headers },
           acked := true },
         { topic := "webhook.github.validated", key := some "d1",
           message := .validated (.pullRequest prEnvelopeNoPR),
           acked := true }] ∧
    prEnvelopeNoPR.pull_request = [] :=
  ⟨rfl, rfl⟩

/-- Claim C5: `send_message` on a started producer performs exactly one
broker publish, returns `True` exactly when the broker acknowledged it, and
reports broker failure as the returned value `False` rather than raising;
on a producer that was never started it raises `RuntimeError` and attempts
nothing (so nothing is ever silently dropped). -/
theorem claim_C5_send_message_contract (ack : Bool) (topic : String)
    (message : MessageL) (key : Option String) :
    send_message true ack topic message key
      = (.sent ack, [{ topic := topic, key := key, message := message, acked := ack }]) ∧
    ((send_message true ack topic message key).1 = .sent true ↔ ack = true) ∧
    send_message false ack topic message key
      = (.runtimeError "Kafka producer not started", []) := by
  refine ⟨?_, ?_, ?_⟩ <;> cases ack <;> simp [send_message]

/-- Claim C9: `stop` on a subscriber whose broker consumer was never created
(never started, or already stopped) returns the state unchanged and performs
no broker operation; and `stop` is idempotent: after any `stop`, a second
`stop` is a no-op. -/
theorem claim_C9_stop_idempotent (s : ConsumerState) (hns : s.consumer = false) :
    stop s = (s, []) ∧
    ∀ s2 : ConsumerState, stop (stop s2).1 = ((stop s2).1, []) := by
  constructor
  · simp [stop, hns]
  · intro s2
    by_cases hc : s2.consumer = false
    · simp [stop, hc]
    · simp [stop, hc]

/-- Witness for claim C9 at the freshly initialized subscriber state. -/
theorem claim_C9_stop_idempotent_witness :
    stop initConsumerState = (initConsumerState, []) :=
  (claim_C9_stop_idempotent initConsumerState rfl).1

/-- Claim C10: `register_app` rejects an already-registered application id
with a 400 error and leaves the store unchanged; for a fresh id it adds
exactly the binding for that id and leaves every other id's lookup
unchanged. -/
theorem claim_C10_register_app (store : List (String × AppL)) (a : AppL) :
    ((List.lookup a.id store).isSome = true →
      register_app store a
        = (some (400, "App ID " ++ a.id ++ " already registered"), store)) ∧
    (List.lookup a.id store = none →
      (register_app store a).1 = none ∧
      List.lookup a.id (register_app store a).2 = some a ∧
      ∀ x, x ≠ a.id → List.lookup x (register_app store a).2 = List.lookup x store) := by
  constructor
  · intro h
    simp [register_app, h]
  · intro h
    refine ⟨?_, ?_, ?_⟩
    · simp [register_app, h]
    · simp only [register_app, h, Option.isSome_none, Bool.false_eq_true, if_false]
      exact lookup_append_fresh store a.id a h
    · intro x hx
      simp only [register_app, h, Option.isSome_none, Bool.false_eq_true, if_false]
      exact lookup_append_ne store a.id x a hx

/-- Witness for claim C10: a duplicate registration is rejected with the
store intact, and a fresh registration is found afterwards. -/
theorem claim_C10_register_app_witness :
    register_app storeW appW
      = (some (400, "App ID " ++ appW.id ++ " already registered"), storeW) ∧
    List.lookup appW.id (register_app [] appW).2 = some appW :=
  ⟨(claim_C10_register_app storeW appW).1 rfl,
   ((claim_C10_register_app [] appW).2 rfl).2.1⟩

/-- Claim C4: for a registered application, a request whose signature header
is `"sha256="` followed by the HMAC-SHA256 hex digest of the exact raw body
under the application's webhook secret authenticates to that application;
any presented digest differing from the one recomputed over the (possibly
mutated) body is rejected, as is a header not starting with `"sha256="`;
and the digest comparison is constant-time: its comparison-step count
depends only on the input lengths, never the contents. -/
theorem claim_C4_signature_authentication (o : Oracles) (store : List (String × AppL))
    (app_id : String) (app : AppL) (req : RequestL)
    (happ : get_app store app_id = some app) :
    (headerGet req.headers "X-Hub-Signature-256"
        = some ("sha256=" ++ o.hmacSha256Hex app.webhook_secret req.body) →
      (authenticate_app o store app_id req).1 = some app) ∧
    (∀ sig, headerGet req.headers "X-Hub-Signature-256" = some ("sha256=" ++ sig) →
      sig ≠ o.hmacSha256Hex app.webhook_secret req.body →
      (authenticate_app o store app_id req).1 = none) ∧
    (∀ sh, headerGet req.headers "X-Hub-Signature-256" = some sh →
      pyStartsWith sh "sha256=" = false →
      (authenticate_app o store app_id req).1 = none) ∧
    (∀ a b a2 b2 : String, a.length = a2.length → b.length = b2.length →
      compare_digest_steps a b = compare_digest_steps a2 b2) := by
  refine ⟨?_, ?_, ?_, ?_⟩
  · intro hh
    simp [authenticate_app, happ, hh, _authenticate_webhook_signature,
      sha_nonempty, sha_pre, sha_drop, compare_digest_self]
  · intro sig hh hne
    have hcd : compare_digest sig (o.hmacSha256Hex app.webhook_secret req.body) = false := by
      cases hv : compare_digest sig (o.hmacSha256Hex app.webhook_secret req.body) with
      | false => rfl
      | true => exact absurd ((compare_digest_iff _ _).mp hv) hne
    simp [authenticate_app, happ, hh, _authenticate_webhook_signature,
      sha_nonempty, sha_pre, sha_drop, hcd]
  · intro sh hh hsw
    by_cases hf : pyFalsy sh = true
    · simp [authenticate_app, happ, hh, _authenticate_webhook_signature, hf]
    · simp [authenticate_app, happ, hh, _authenticate_webhook_signature, hf, hsw]
  · intro a b a2 b2 ha hb
    have ha2 : a.data.length = a2.data.length := ha
    have hb2 : b.data.length = b2.data.length := hb
    simp [compare_digest_steps, ctSteps_len, ha2, hb2]

/-- Witness for claim C4: the correctly signed request authenticates; the
same header over a body mutated in one byte is rejected. -/
theorem claim_C4_signature_authentication_witness :
    (authenticate_app oraclesW storeW "a1" reqSigW).1 = some appW ∧
    (authenticate_app oraclesW storeW "a1" reqSigMutW).1 = none :=
  ⟨(claim_C4_signature_authentication oraclesW storeW "a1" appW reqSigW rfl).1 rfl,
   (claim_C4_signature_authentication oraclesW storeW "a1" appW reqSigMutW rfl).2.1
     (oraclesW.hmacSha256Hex "sec" [0]) rfl (by decide)⟩

/-- Claim C6: the classifier maps action `"opened"` to the taxonomy value
`pull_request.opened`; any action absent from the static `event_type_map`
maps to the catch-all `other`; and a structurally valid pull-request payload
is never rejected because its action is unrecognized: the handler succeeds
for every action string. -/
theorem claim_C6_action_classification (st : SettingsL) (broker : Broker) (app : AppL)
    (now : Nat) (did : String) (fields : List (String × Json))
    (a : String) (prf : List (String × Json))
    (hact : lookupField fields "action" = some (Json.str a))
    (hpr : lookupField fields "pull_request" = some (Json.obj prf))
    (hrepo : exOk (validateOptObj (lookupField fields "repository")) = true)
    (hsend : exOk (validateOptObj (lookupField fields "sender")) = true) :
    prEventTypeOfAction (Json.str "opened") = .pull_request_opened ∧
    (∀ s, List.lookup s event_type_map = none →
      prEventTypeOfAction (Json.str s) = .other) ∧
    exOk (handle_pull_request_event st broker app now (Json.obj fields) did).1 = true := by
  refine ⟨rfl, ?_, ?_⟩
  · intro s h
    simp [prEventTypeOfAction, h]
  · obtain ⟨r, hr⟩ : ∃ r, validateOptObj (lookupField fields "repository") = .ok r := by
      cases hv : validateOptObj (lookupField fields "repository") with
      | ok r => exact ⟨r, rfl⟩
      | error e => rw [hv] at hrepo; simp [exOk] at hrepo
    obtain ⟨sd, hs⟩ : ∃ sd, validateOptObj (lookupField fields "sender") = .ok sd := by
      cases hv : validateOptObj (lookupField fields "sender") with
      | ok sd => exact ⟨sd, rfl⟩
      | error e => rw [hv] at hsend; simp [exOk] at hsend
    simp [handle_pull_request_event, mkPullRequestPayload, hact, hpr, hr, hs,
      coerceStr, exOk]

/-- Witness for claim C6 on a payload whose action `"bogus"` is not in the
lookup table: classification yields `other` and the handler still succeeds. -/
theorem claim_C6_action_classification_witness :
    prEventTypeOfAction (Json.str "bogus") = .other ∧
    exOk (handle_pull_request_event defaultSettings brokerOk appW 0
      (Json.obj fieldsC6) "d1").1 = true :=
  ⟨(claim_C6_action_classification defaultSettings brokerOk appW 0 "d1" fieldsC6
      "bogus" [] rfl rfl rfl rfl).2.1 "bogus" rfl,
   (claim_C6_action_classification defaultSettings brokerOk appW 0 "d1" fieldsC6
      "bogus" [] rfl rfl rfl rfl).2.2⟩

/-- Claim C7: a request presenting none of the three recognized
authentication headers is rejected for every credential store; when the
application id resolves, the failure is precisely the
"No authentication method found" outcome; and when the claimed id does not
resolve, authentication fails immediately with the unknown-app outcome for
every request and oracle set, before any scheme is attempted. -/
theorem claim_C7_no_method_and_unknown_app (o : Oracles) (store : List (String × AppL))
    (app_id : String) (req : RequestL)
    (h1 : headerGet req.headers "X-Hub-Signature-256" = none)
    (h2 : headerGet req.headers "X-App-Key" = none)
    (h3 : headerGet req.headers "Authorization" = none) :
    (authenticate_app o store app_id req).1 = none ∧
    (∀ app, get_app store app_id = some app →
      authenticate_app o store app_id req
        = (none, ["No authentication method found for app: " ++ app_id])) ∧
    (∀ (o2 : Oracles) (store2 : List (String × AppL)) (id2 : String) (req2 : RequestL),
      get_app store2 id2 = none →
      authenticate_app o2 store2 id2 req2 = (none, ["App not found: " ++ id2])) := by
  refine ⟨?_, ?_, ?_⟩
  · cases hstore : get_app store app_id with
    | none => simp [authenticate_app, hstore]
    | some app => simp [authenticate_app, hstore, h1, h2, h3]
  · intro app happ
    simp [authenticate_app, happ, h1, h2, h3]
  · intro o2 store2 id2 req2 h
    simp [authenticate_app, h]

/-- Witness for claim C7: with no authentication headers, the registered id
fails with the no-method outcome and an unknown id fails with the
unknown-app outcome. -/
theorem claim_C7_no_method_and_unknown_app_witness :
    authenticate_app oraclesW storeW "a1" reqNoAuth
      = (none, ["No authentication method found for app: " ++ "a1"]) ∧
    authenticate_app oraclesW storeW "zz" reqNoAuth
      = (none, ["App not found: " ++ "zz"]) :=
  ⟨(claim_C7_no_method_and_unknown_app oraclesW storeW "a1" reqNoAuth
      rfl rfl rfl).2.1 appW rfl,
   (claim_C7_no_method_and_unknown_app oraclesW storeW "a1" reqNoAuth
      rfl rfl rfl).2.2 oraclesW storeW "zz" reqNoAuth rfl⟩

/-- Claim C8: registering two handlers on the same topic stores them in
registration order; each decodable message on that topic invokes both, in
that order, even when the first raises (its failure is caught and recorded,
not propagated); and the loop processes every subsequent message regardless
of earlier handler failures. -/
theorem claim_C8_handler_error_isolation (s0 : ConsumerState) (t : String)
    (h1 h2 : Nat) (behave : Nat → Json → Option String → Except String Unit)
    (e : String) (v : Json) (k : Option String)
    (hfresh : List.lookup t s0.handlers = none)
    (hfail : behave h1 v k = .error e) :
    List.lookup t ((register_handler (register_handler s0 t h1).1 t h2).1).handlers
      = some [h1, h2] ∧
    handleMessage ((register_handler (register_handler s0 t h1).1 t h2).1).handlers
        behave { topic := t, value := some v, key := k }
      = [(h1, false), (h2, exOk (behave h2 v k))] ∧
    (∀ hs m ms, consume_loop hs behave (m :: ms)
      = handleMessage hs behave m :: consume_loop hs behave ms) := by
  have hreg : List.lookup t
      ((register_handler (register_handler s0 t h1).1 t h2).1).handlers
      = some [h1, h2] := by
    rw [register_handler_handlers, register_handler_handlers,
      addHandler_lookup_self, addHandler_lookup_self, hfresh]
    rfl
  refine ⟨hreg, ?_, ?_⟩
  · simp [handleMessage, hreg, hfail, exOk]
  · intro hs m ms
    simp [consume_loop]

/-- Witness for claim C8: two handlers registered on topic `"t"`, the first
raising, are both invoked in order on a message. -/
theorem claim_C8_handler_error_isolation_witness :
    handleMessage
        ((register_handler (register_handler initConsumerState "t" 0).1 "t" 1).1).handlers
        behaveW { topic := "t", value := some Json.null, key := none }
      = [(0, false), (1, true)] :=
  (claim_C8_handler_error_isolation initConsumerState "t" 0 1 behaveW
    "boom" Json.null none rfl rfl).2.1

end CodeReview
